import Mathlib

/-!
Shallow embedding of the compiler snapshots in this repository.

`Part0` models the first program of `src/unnamed/part_000`: a single-file
compiler for integer expressions with comparison operators.  It embeds the
tokenizer helpers `strncmp`, `startswith`, `ispunct` and `read_punct`
(lines 59-66), the expression AST, and the stack-machine code generator
`gen_expr` together with its mutable `depth` counter (lines 288-346),
threaded here as an explicit depth argument.

`Chibicc` models the most advanced snapshot: `src/parse.c` together with the
declarations of `src/unnamed/part_001` (the header).  The token list is the
parser input; the global `locals` list is threaded explicitly; `error_tok`
and friends are modelled by `Option.none`; recursion of the grammar is made
total with an explicit fuel argument that only ever produces `none` when it
runs out, mirroring nontermination.  The snapshot's `type.c` and `codegen.c`
are not part of the sources, so the two facts needed from them (`add_type`
and the frame-offset assignment) are modelled from the specification and
marked as such.  Token back-references (`tok` fields), which the C code keeps
only for diagnostics, are not carried.
-/

namespace Part0

/-- C `strncmp(p, q, n)` on NUL-free strings represented as `List Char`;
the end of a list plays the role of the terminating NUL byte. -/
def strncmp : List Char → List Char → Nat → Int
  | _, _, 0 => 0
  | [], [], _ + 1 => 0
  | [], q :: _, _ + 1 => -(q.toNat : Int)
  | p :: _, [], _ + 1 => (p.toNat : Int)
  | p :: ps, q :: qs, n + 1 =>
    if p = q then strncmp ps qs n else (p.toNat : Int) - (q.toNat : Int)

/-- The source's `startswith` (line 59):
`return strncmp(p, q, strlen(q));` converted to `bool`.  Note the missing
`== 0` comparison: it is true exactly when `p` does NOT start with `q`. -/
def startswith (p q : List Char) : Bool :=
  strncmp p q q.length != 0

/-- C `ispunct` for the ASCII execution character set: printable characters
that are neither alphanumeric nor space. -/
def ispunct (c : Char) : Bool :=
  (33 ≤ c.toNat && c.toNat ≤ 47) || (58 ≤ c.toNat && c.toNat ≤ 64) ||
  (91 ≤ c.toNat && c.toNat ≤ 96) || (123 ≤ c.toNat && c.toNat ≤ 126)

/-- Dereferencing the current position `*p`; at the end of the buffer this
reads the NUL terminator. -/
def firstChar : List Char → Char
  | [] => Char.ofNat 0
  | c :: _ => c

/-- `read_punct` (lines 61-66): length of the punctuator token starting at
`p`, using the (buggy) `startswith` above. -/
def read_punct (p : List Char) : Nat :=
  if startswith p "==".toList || startswith p "!=".toList ||
      startswith p "<=".toList || startswith p ">=".toList then 2
  else if ispunct (firstChar p) then 1 else 0

/-- Node kinds of the binary operators; `ND_NUM` and `ND_NEG` are kept apart
because `gen_expr` treats them before the common push/pop sequence. -/
inductive BinKind
  | add
  | sub
  | mul
  | div
  | eq
  | ne
  | lt
  | le
deriving DecidableEq

/-- The snapshot's AST: `ND_NUM` uses `val`, `ND_NEG` uses `lhs`, every other
kind uses `lhs` and `rhs`. -/
inductive Node where
  | num (val : Int)
  | neg (e : Node)
  | binary (k : BinKind) (lhs rhs : Node)
deriving DecidableEq

/-- The instructions the second `switch` of `gen_expr` emits for a binary
node, after the operands have been placed in `%rax` (left) and `%rdi`
(right). -/
def binOps : BinKind → List String
  | .add => ["  add %rdi, %rax"]
  | .sub => ["  sub %rdi, %rax"]
  | .mul => ["  imul %rdi, %rax"]
  | .div => ["  cqo", "  idiv %rdi"]
  | .eq => ["  cmp %rdi, %rax", "  sete %al", "  movzb %al, %rax"]
  | .ne => ["  cmp %rdi, %rax", "  setne %al", "  movzb %al, %rax"]
  | .lt => ["  cmp %rdi, %rax", "  setl %al", "  movzb %al, %rax"]
  | .le => ["  cmp %rdi, %rax", "  setle %al", "  movzb %al, %rax"]

/-- `gen_expr` (lines 300-346) with the global mutable `depth` threaded as an
explicit argument: returns the emitted instruction lines and the final value
of `depth`.  `push()` emits `push %rax` and increments `depth`; `pop("%rdi")`
emits `pop %rdi` and decrements it. -/
def genExpr : Node → Int → List String × Int
  | .num v, d => (["  mov $" ++ toString v ++ ", %rax"], d)
  | .neg e, d => ((genExpr e d).1 ++ ["  neg %rax"], (genExpr e d).2)
  | .binary k l r, d =>
    ((genExpr r d).1 ++ ["  push %rax"] ++
        (genExpr l ((genExpr r d).2 + 1)).1 ++ ["  pop %rdi"] ++ binOps k,
      (genExpr l ((genExpr r d).2 + 1)).2 - 1)

/-- The `assert(depth == 0)` executed at the end of `main` (line 364), with
code generation for the expression starting at depth 0. -/
def mainDepthAssert (n : Node) : Bool :=
  (genExpr n 0).2 == 0

end Part0

namespace Chibicc

/-- `struct Type` of the header: `TY_INT`, `TY_PTR` (with its `base`) and
`TY_FUNC` (with its `return_ty`). -/
inductive Ty where
  | int
  | ptr (base : Ty)
  | func (return_ty : Ty)
deriving DecidableEq

/-- `is_integer(ty)`: true exactly for `TY_INT`. -/
def is_integer : Ty → Bool
  | .int => true
  | _ => false

/-- The `base` field of a `Type`: non-NULL exactly for pointer types. -/
def tyBase : Ty → Option Ty
  | .ptr b => some b
  | _ => none

/-- `struct Obj`: a local variable.  `offset` is zeroed by `calloc` and only
written by the (absent) code generator. -/
structure Obj where
  name : String
  ty : Ty
  offset : Int
deriving DecidableEq

/-- `find_var`: walk the `locals` list front to back and return the first
variable whose name equals the token's text. -/
def find_var (name : String) (locals : List Obj) : Option Obj :=
  locals.find? fun v => v.name == name

/-- `new_lvar`: allocate a zeroed variable and push it on the front of the
`locals` list; returns the new variable and the new list. -/
def new_lvar (name : String) (ty : Ty) (locals : List Obj) : Obj × List Obj :=
  (⟨name, ty, 0⟩, ⟨name, ty, 0⟩ :: locals)

/-- Modelled from the spec: the frame-offset assignment lives in the
snapshot's `codegen.c`, which is absent from the sources.  Per §4.4, every
variable is sized at one machine word (8 bytes) and its offset is the
negative cumulative byte distance from the frame base, assigned by walking
the `locals` list. -/
def assign_lvar_offsets : Int → List Obj → List Obj
  | _, [] => []
  | off, v :: vs => { v with offset := -(off + 8) } :: assign_lvar_offsets (off + 8) vs

/-- Token kinds of the header: `TK_PUNCT`, `TK_IDENT`, `TK_KEYWORD`,
`TK_NUM`, `TK_EOF`.  Each text-bearing kind carries the source text the C
token points at via `loc`/`len`. -/
inductive Token where
  | punct (s : String)
  | ident (s : String)
  | keyword (s : String)
  | num (v : Int)
  | eof
deriving DecidableEq

/-- `equal(tok, op)`: compare the token's text with `op`.  A numeric token's
digits never equal any operator or keyword the parser asks about, and the
zero-length EOF token equals only the empty string (never queried). -/
def equal : Token → String → Bool
  | .punct s, op => s == op
  | .ident s, op => s == op
  | .keyword s, op => s == op
  | .num _, _ => false
  | .eof, _ => false

/-- `equal` applied to the token under the cursor, as in `equal(tok, s)`;
an exhausted list stands for no token and matches nothing. -/
def headIs (toks : List Token) (s : String) : Bool :=
  match toks with
  | t :: _ => equal t s
  | [] => false

/-- `skip(tok, s)`: demand the next token be `s` and advance, otherwise the
fatal `error_tok` (modelled as `none`). -/
def skip (toks : List Token) (s : String) : Option (List Token) :=
  match toks with
  | t :: rest => if equal t s then some rest else none
  | [] => none

/-- `NodeKind` of the header. -/
inductive NodeKind
  | ND_ADD
  | ND_SUB
  | ND_MUL
  | ND_DIV
  | ND_NEG
  | ND_EQ
  | ND_NE
  | ND_LT
  | ND_LE
  | ND_ASSIGN
  | ND_ADDR
  | ND_DEREF
  | ND_RETURN
  | ND_IF
  | ND_FOR
  | ND_BLOCK
  | ND_FUNCALL
  | ND_EXPR_STMT
  | ND_VAR
  | ND_NUM
deriving DecidableEq

/-- `struct Node` of the header, with the same nullable child fields (the
statement chaining `next` pointer is replaced by the `body` list, and the
diagnostic `tok` back-reference is dropped). -/
inductive Node where
  | mk (kind : NodeKind) (ty : Option Ty)
      (lhs rhs cond thn els ini inc : Option Node)
      (body : List Node) (funcname : Option String)
      (var : Option Obj) (val : Int)

/-- The `kind` field. -/
def Node.kind : Node → NodeKind
  | .mk k _ _ _ _ _ _ _ _ _ _ _ _ => k

/-- The `ty` field. -/
def Node.ty : Node → Option Ty
  | .mk _ t _ _ _ _ _ _ _ _ _ _ _ => t

/-- The `lhs` field. -/
def Node.lhs : Node → Option Node
  | .mk _ _ l _ _ _ _ _ _ _ _ _ _ => l

/-- The `rhs` field. -/
def Node.rhs : Node → Option Node
  | .mk _ _ _ r _ _ _ _ _ _ _ _ _ => r

/-- The `val` field. -/
def Node.val : Node → Int
  | .mk _ _ _ _ _ _ _ _ _ _ _ _ v => v

/-- Assignment `node->ty = ...`. -/
def Node.setTy : Node → Option Ty → Node
  | .mk k _ l r c t e i n b f v x, ty => .mk k ty l r c t e i n b f v x

/-- Assignment `node->body = ...`. -/
def Node.setBody : Node → List Node → Node
  | .mk k ty l r c t e i n _ f v x, b => .mk k ty l r c t e i n b f v x

/-- Assignment `node->cond = ...`. -/
def Node.setCond : Node → Option Node → Node
  | .mk k ty l r _ t e i n b f v x, c => .mk k ty l r c t e i n b f v x

/-- Assignment `node->then = ...`. -/
def Node.setThn : Node → Option Node → Node
  | .mk k ty l r c _ e i n b f v x, t => .mk k ty l r c t e i n b f v x

/-- Assignment `node->els = ...`. -/
def Node.setEls : Node → Option Node → Node
  | .mk k ty l r c t _ i n b f v x, e => .mk k ty l r c t e i n b f v x

/-- Assignment `node->init = ...`. -/
def Node.setIni : Node → Option Node → Node
  | .mk k ty l r c t e _ n b f v x, i => .mk k ty l r c t e i n b f v x

/-- Assignment `node->inc = ...`. -/
def Node.setInc : Node → Option Node → Node
  | .mk k ty l r c t e i _ b f v x, n => .mk k ty l r c t e i n b f v x

/-- Assignment `node->funcname = ...`. -/
def Node.setFuncname : Node → Option String → Node
  | .mk k ty l r c t e i n b _ v x, f => .mk k ty l r c t e i n b f v x

/-- `new_node(kind)`: a `calloc`-zeroed node with only the kind set. -/
def new_node (k : NodeKind) : Node :=
  .mk k none none none none none none none none [] none none 0

/-- `new_binary(kind, lhs, rhs)`. -/
def new_binary (k : NodeKind) (lhs rhs : Node) : Node :=
  .mk k none (some lhs) (some rhs) none none none none none [] none none 0

/-- `new_unary(kind, expr)`: stores the operand in `lhs`. -/
def new_unary (k : NodeKind) (e : Node) : Node :=
  .mk k none (some e) none none none none none none [] none none 0

/-- `new_num(val)`. -/
def new_num (v : Int) : Node :=
  .mk .ND_NUM none none none none none none none none [] none none v

/-- `new_var_node(var)`. -/
def new_var_node (v : Obj) : Node :=
  .mk .ND_VAR none none none none none none none none [] none (some v) 0

/-- Type of the node under an `Option`, as read through a possibly-NULL
child pointer. -/
def tyOfO (o : Option Node) : Option Ty :=
  o.bind Node.ty

mutual

/-- Modelled from the spec: `add_type` is declared in the header but its
`type.c` is absent from the sources.  §4.3 gives the annotation rules, which
this follows bottom-up: integer literals are `Integer`; a variable reference
gets the variable's declared type; `AddressOf(e)` is `Pointer(ty e)`;
`Dereference(e)` is the pointee type, with the documented defensive fallback
to `Integer` when the operand is not a pointer; `Add`/`Sub` of two integers
is `Integer`, with exactly one pointer operand keeps the pointer's type, and
`Sub` of two pointers is `Integer` (the `offset * 8` rewriting the spec
describes is performed incrementally during parsing by `new_add`/`new_sub`
of `parse.c`, which pre-set `ty`, so an already-typed node is returned
unchanged); comparisons, assignments and calls are `Integer` (the subset has
no boolean type); statement kinds carry no type; invalid combinations (the
spec's fatal `TypeError`) are left untyped. -/
def add_type (node : Node) : Node :=
  match node with
  | .mk k ty lhs rhs cond thn els ini inc body fname var val =>
    if ty.isSome then .mk k ty lhs rhs cond thn els ini inc body fname var val
    else
      let lhs := add_typeO lhs
      let rhs := add_typeO rhs
      let cond := add_typeO cond
      let thn := add_typeO thn
      let els := add_typeO els
      let ini := add_typeO ini
      let inc := add_typeO inc
      let body := add_typeL body
      let newTy : Option Ty :=
        match k with
        | .ND_NUM => some .int
        | .ND_VAR => var.map Obj.ty
        | .ND_ADDR => (tyOfO lhs).map Ty.ptr
        | .ND_DEREF =>
          match tyOfO lhs with
          | some (.ptr b) => some b
          | some _ => some .int
          | none => none
        | .ND_ADD =>
          match tyOfO lhs, tyOfO rhs with
          | some .int, some .int => some .int
          | some (.ptr b), some .int => some (.ptr b)
          | some .int, some (.ptr b) => some (.ptr b)
          | _, _ => none
        | .ND_SUB =>
          match tyOfO lhs, tyOfO rhs with
          | some .int, some .int => some .int
          | some (.ptr b), some .int => some (.ptr b)
          | some (.ptr _), some (.ptr _) => some .int
          | _, _ => none
        | .ND_MUL => tyOfO lhs
        | .ND_DIV => tyOfO lhs
        | .ND_NEG => tyOfO lhs
        | .ND_EQ => some .int
        | .ND_NE => some .int
        | .ND_LT => some .int
        | .ND_LE => some .int
        | .ND_ASSIGN => some .int
        | .ND_FUNCALL => some .int
        | .ND_RETURN => none
        | .ND_IF => none
        | .ND_FOR => none
        | .ND_BLOCK => none
        | .ND_EXPR_STMT => none
      .mk k newTy lhs rhs cond thn els ini inc body fname var val

/-- `add_type` through a nullable child pointer. -/
def add_typeO : Option Node → Option Node
  | none => none
  | some n => some (add_type n)

/-- `add_type` over a statement sequence. -/
def add_typeL : List Node → List Node
  | [] => []
  | n :: ns => add_type n :: add_typeL ns

end

/-- `new_add` (parse.c lines 280-302), `+` overloaded for pointers.  Both
operands are typed first.  `num + num` is a plain `ND_ADD`; `ptr + ptr` is
the fatal "invalid operands" (`none`).  Otherwise the source attempts to
canonicalize `num + ptr` to `ptr + num` with
`tmp = lhs; lhs = rhs; rhs = lhs;` — `tmp` is never read and `rhs` receives
the already-overwritten `lhs`, so after it both sides are the original
`rhs`.  The right side is then wrapped in `ND_MUL` by 8 (typed int) and the
sum typed with the left side's type. -/
def new_add (lhs rhs : Node) : Option Node :=
  let lhs := add_type lhs
  let rhs := add_type rhs
  match lhs.ty, rhs.ty with
  | some lt, some rt =>
    if is_integer lt && is_integer rt then
      some (new_binary .ND_ADD lhs rhs)
    else if (tyBase lt).isSome && (tyBase rt).isSome then
      none
    else
      let p :=
        if !(tyBase lt).isSome && (tyBase rt).isSome then
          let lhs := rhs
          let rhs := lhs
          (lhs, rhs)
        else (lhs, rhs)
      let lhs := p.1
      let rhs := p.2
      let rhs := (new_binary .ND_MUL rhs (new_num 8)).setTy (some .int)
      some ((new_binary .ND_ADD lhs rhs).setTy lhs.ty)
  | _, _ => none

/-- `new_sub` (parse.c lines 305-329), `-` overloaded for pointers:
`num - num` is a plain `ND_SUB`; `ptr - num` scales the integer by 8 and
keeps the pointer type; `ptr - ptr` is an int-typed `ND_SUB` divided by 8;
anything else is the fatal "invalid operands". -/
def new_sub (lhs rhs : Node) : Option Node :=
  let lhs := add_type lhs
  let rhs := add_type rhs
  match lhs.ty, rhs.ty with
  | some lt, some rt =>
    if is_integer lt && is_integer rt then
      some (new_binary .ND_SUB lhs rhs)
    else if (tyBase lt).isSome && is_integer rt then
      let rhs := (new_binary .ND_MUL rhs (new_num 8)).setTy (some .int)
      some ((new_binary .ND_SUB lhs rhs).setTy lhs.ty)
    else if (tyBase lt).isSome && (tyBase rt).isSome then
      let node := (new_binary .ND_SUB lhs rhs).setTy (some .int)
      some ((new_binary .ND_DIV node (new_num 8)).setTy (some .int))
    else none
  | _, _ => none

/-- The `while (consume(&tok, tok, "*")) ty = pointer_to(ty);` loop of
`declarator`. -/
def ptrWrap : List Token → Ty → Ty × List Token
  | t :: rest, ty =>
    if equal t "*" then ptrWrap rest (.ptr ty) else (ty, t :: rest)
  | [], ty => (ty, [])

/-- `declarator = "*"* ident` (parse.c lines 96-106), combined with the
`get_ident` extraction of the declared name; a missing identifier is the
fatal "expected a variable name". -/
def declarator (toks : List Token) (ty : Ty) : Option (Ty × String × List Token) :=
  let (ty, toks) := ptrWrap toks ty
  match toks with
  | .ident s :: rest => some (ty, s, rest)
  | _ => none

mutual

/-- `declaration` (parse.c lines 109-130):
`declspec (declarator ("=" expr)? ("," declarator ("=" expr)?)*)? ";"` —
the grammar comment in the source makes the declarator group optional, and
the `while (!equal(tok, ";"))` loop indeed runs zero times on `int;`.
Declared variables are pushed onto `locals` immediately; initializers become
`ND_EXPR_STMT(ND_ASSIGN(var, rhs))` statements collected into an `ND_BLOCK`
node. -/
def declaration (fuel : Nat) (toks : List Token) (lv : List Obj) :
    Option (Node × List Token × List Obj) :=
  match fuel with
  | 0 => none
  | f + 1 =>
    match skip toks "int" with
    | none => none
    | some toks1 =>
      match declLoop f Ty.int true toks1 lv [] with
      | none => none
      | some (body, rest, lv1) =>
        some ((new_node .ND_BLOCK).setBody body, rest, lv1)

/-- The `while (!equal(tok, ";"))` loop of `declaration`; `first` tracks the
`i++ > 0` comma test. -/
def declLoop (fuel : Nat) (basety : Ty) (first : Bool) (toks : List Token)
    (lv : List Obj) (acc : List Node) :
    Option (List Node × List Token × List Obj) :=
  match toks with
  | [] => none
  | t :: rest0 =>
    if equal t ";" then some (acc, rest0, lv)
    else
      match fuel with
      | 0 => none
      | f + 1 =>
        match (if first then some (t :: rest0) else skip (t :: rest0) ",") with
        | none => none
        | some toks1 =>
          match declarator toks1 basety with
          | none => none
          | some (ty, name, toks2) =>
            let (var, lv1) := new_lvar name ty lv
            if headIs toks2 "=" then
              match assign f toks2.tail lv1 with
              | none => none
              | some (rhs, toks3) =>
                declLoop f basety false toks3 lv1
                  (acc ++ [new_unary .ND_EXPR_STMT
                    (new_binary .ND_ASSIGN (new_var_node var) rhs)])
            else declLoop f basety false toks2 lv1 acc

/-- `compound_stmt` (parse.c lines 187-201): `(declaration | stmt)* "}"`,
wrapped into an `ND_BLOCK` node. -/
def compound_stmt (fuel : Nat) (toks : List Token) (lv : List Obj) :
    Option (Node × List Token × List Obj) :=
  match fuel with
  | 0 => none
  | f + 1 =>
    match compoundLoop f toks lv [] with
    | none => none
    | some (body, rest, lv1) =>
      some ((new_node .ND_BLOCK).setBody body, rest, lv1)

/-- The `while (!equal(tok, "}"))` loop of `compound_stmt`: a statement
starting with `int` is a declaration, anything else a statement, and each
parsed statement is passed through `add_type`. -/
def compoundLoop (fuel : Nat) (toks : List Token) (lv : List Obj)
    (acc : List Node) : Option (List Node × List Token × List Obj) :=
  match toks with
  | [] => none
  | t :: rest0 =>
    if equal t "\x7d" then some (acc, rest0, lv)
    else
      match fuel with
      | 0 => none
      | f + 1 =>
        if equal t "int" then
          match declaration f (t :: rest0) lv with
          | none => none
          | some (n, r, lv1) => compoundLoop f r lv1 (acc ++ [add_type n])
        else
          match stmt f (t :: rest0) lv with
          | none => none
          | some (n, r, lv1) => compoundLoop f r lv1 (acc ++ [add_type n])

/-- `stmt` (parse.c lines 138-184): return / if / for / while / block /
expression statement. -/
def stmt (fuel : Nat) (toks : List Token) (lv : List Obj) :
    Option (Node × List Token × List Obj) :=
  match fuel with
  | 0 => none
  | f + 1 =>
    match toks with
    | [] => none
    | t :: rest0 =>
      if equal t "return" then
        match expr f rest0 lv with
        | none => none
        | some (e, r) =>
          match skip r ";" with
          | none => none
          | some r2 => some (new_unary .ND_RETURN e, r2, lv)
      else if equal t "if" then
        match skip rest0 "(" with
        | none => none
        | some r1 =>
          match expr f r1 lv with
          | none => none
          | some (c, r2) =>
            match skip r2 ")" with
            | none => none
            | some r3 =>
              match stmt f r3 lv with
              | none => none
              | some (th, r4, lv1) =>
                if headIs r4 "else" then
                  match stmt f r4.tail lv1 with
                  | none => none
                  | some (el, r5, lv2) =>
                    some ((((new_node .ND_IF).setCond (some c)).setThn
                      (some th)).setEls (some el), r5, lv2)
                else
                  some (((new_node .ND_IF).setCond (some c)).setThn (some th),
                    r4, lv1)
      else if equal t "for" then
        match skip rest0 "(" with
        | none => none
        | some r1 =>
          match expr_stmt f r1 lv with
          | none => none
          | some (ini, r2) =>
            match
              (if headIs r2 ";" then some (none, r2)
               else
                 match expr f r2 lv with
                 | none => none
                 | some (c, r3) => some (some c, r3)) with
            | none => none
            | some (condO, r3) =>
              match skip r3 ";" with
              | none => none
              | some r4 =>
                match
                  (if headIs r4 ")" then some (none, r4)
                   else
                     match expr f r4 lv with
                     | none => none
                     | some (i, r5) => some (some i, r5)) with
                | none => none
                | some (incO, r5) =>
                  match skip r5 ")" with
                  | none => none
                  | some r6 =>
                    match stmt f r6 lv with
                    | none => none
                    | some (bd, r7, lv1) =>
                      some (((((new_node .ND_FOR).setIni (some ini)).setCond
                        condO).setInc incO).setThn (some bd), r7, lv1)
      else if equal t "while" then
        match skip rest0 "(" with
        | none => none
        | some r1 =>
          match expr f r1 lv with
          | none => none
          | some (c, r2) =>
            match skip r2 ")" with
            | none => none
            | some r3 =>
              match stmt f r3 lv with
              | none => none
              | some (bd, r4, lv1) =>
                some (((new_node .ND_FOR).setCond (some c)).setThn (some bd),
                  r4, lv1)
      else if equal t "\x7b" then compound_stmt f rest0 lv
      else
        match expr_stmt f (t :: rest0) lv with
        | none => none
        | some (n, r) => some (n, r, lv)

/-- `expr_stmt` (parse.c lines 204-213): a bare `;` yields an empty
`ND_BLOCK`, otherwise `expr ";"` wrapped in `ND_EXPR_STMT`. -/
def expr_stmt (fuel : Nat) (toks : List Token) (lv : List Obj) :
    Option (Node × List Token) :=
  match fuel with
  | 0 => none
  | f + 1 =>
    if headIs toks ";" then some (new_node .ND_BLOCK, toks.tail)
    else
      match expr f toks lv with
      | none => none
      | some (e, r) =>
        match skip r ";" with
        | none => none
        | some r2 => some (new_unary .ND_EXPR_STMT e, r2)

/-- `expr = assign` (parse.c line 216). -/
def expr (fuel : Nat) (toks : List Token) (lv : List Obj) :
    Option (Node × List Token) :=
  match fuel with
  | 0 => none
  | f + 1 => assign f toks lv

/-- `assign = equality ("=" assign)?` (parse.c lines 219-226),
right-associative. -/
def assign (fuel : Nat) (toks : List Token) (lv : List Obj) :
    Option (Node × List Token) :=
  match fuel with
  | 0 => none
  | f + 1 =>
    match equality f toks lv with
    | none => none
    | some (n, r) =>
      if headIs r "=" then
        match assign f r.tail lv with
        | none => none
        | some (rhs, r2) => some (new_binary .ND_ASSIGN n rhs, r2)
      else some (n, r)

/-- `equality = relational ("==" relational | "!=" relational)*`
(parse.c lines 229-247). -/
def equality (fuel : Nat) (toks : List Token) (lv : List Obj) :
    Option (Node × List Token) :=
  match fuel with
  | 0 => none
  | f + 1 =>
    match relational f toks lv with
    | none => none
    | some (n, r) => eqLoop f n r lv

/-- The iteration of `equality`. -/
def eqLoop (fuel : Nat) (node : Node) (toks : List Token) (lv : List Obj) :
    Option (Node × List Token) :=
  match toks with
  | [] => some (node, [])
  | t :: rest =>
    if equal t "==" then
      match fuel with
      | 0 => none
      | f + 1 =>
        match relational f rest lv with
        | none => none
        | some (m, r) => eqLoop f (new_binary .ND_EQ node m) r lv
    else if equal t "!=" then
      match fuel with
      | 0 => none
      | f + 1 =>
        match relational f rest lv with
        | none => none
        | some (m, r) => eqLoop f (new_binary .ND_NE node m) r lv
    else some (node, t :: rest)

/-- `relational = add ("<" add | "<=" add | ">" add | ">=" add)*`
(parse.c lines 250-278). -/
def relational (fuel : Nat) (toks : List Token) (lv : List Obj) :
    Option (Node × List Token) :=
  match fuel with
  | 0 => none
  | f + 1 =>
    match add f toks lv with
    | none => none
    | some (n, r) => relLoop f n r lv

/-- The iteration of `relational`.  For `<`/`<=` the accumulated node is the
left child; for `>`/`>=` the freshly parsed right operand becomes the LEFT
child of an `ND_LT`/`ND_LE` node and the accumulated node the right child:
the operands are swapped and the less-than kinds reused. -/
def relLoop (fuel : Nat) (node : Node) (toks : List Token) (lv : List Obj) :
    Option (Node × List Token) :=
  match toks with
  | [] => some (node, [])
  | t :: rest =>
    if equal t "<" then
      match fuel with
      | 0 => none
      | f + 1 =>
        match add f rest lv with
        | none => none
        | some (m, r) => relLoop f (new_binary .ND_LT node m) r lv
    else if equal t "<=" then
      match fuel with
      | 0 => none
      | f + 1 =>
        match add f rest lv with
        | none => none
        | some (m, r) => relLoop f (new_binary .ND_LE node m) r lv
    else if equal t ">" then
      match fuel with
      | 0 => none
      | f + 1 =>
        match add f rest lv with
        | none => none
        | some (m, r) => relLoop f (new_binary .ND_LT m node) r lv
    else if equal t ">=" then
      match fuel with
      | 0 => none
      | f + 1 =>
        match add f rest lv with
        | none => none
        | some (m, r) => relLoop f (new_binary .ND_LE m node) r lv
    else some (node, t :: rest)

/-- `add = mul ("+" mul | "-" mul)*` (parse.c lines 332-350), combining via
the pointer-aware `new_add`/`new_sub`. -/
def add (fuel : Nat) (toks : List Token) (lv : List Obj) :
    Option (Node × List Token) :=
  match fuel with
  | 0 => none
  | f + 1 =>
    match mul f toks lv with
    | none => none
    | some (n, r) => addLoop f n r lv

/-- The iteration of `add`. -/
def addLoop (fuel : Nat) (node : Node) (toks : List Token) (lv : List Obj) :
    Option (Node × List Token) :=
  match toks with
  | [] => some (node, [])
  | t :: rest =>
    if equal t "+" then
      match fuel with
      | 0 => none
      | f + 1 =>
        match mul f rest lv with
        | none => none
        | some (m, r) =>
          match new_add node m with
          | none => none
          | some n2 => addLoop f n2 r lv
    else if equal t "-" then
      match fuel with
      | 0 => none
      | f + 1 =>
        match mul f rest lv with
        | none => none
        | some (m, r) =>
          match new_sub node m with
          | none => none
          | some n2 => addLoop f n2 r lv
    else some (node, t :: rest)

/-- `mul = unary ("*" unary | "/" unary)*` (parse.c lines 353-371). -/
def mul (fuel : Nat) (toks : List Token) (lv : List Obj) :
    Option (Node × List Token) :=
  match fuel with
  | 0 => none
  | f + 1 =>
    match unary f toks lv with
    | none => none
    | some (n, r) => mulLoop f n r lv

/-- The iteration of `mul`. -/
def mulLoop (fuel : Nat) (node : Node) (toks : List Token) (lv : List Obj) :
    Option (Node × List Token) :=
  match toks with
  | [] => some (node, [])
  | t :: rest =>
    if equal t "*" then
      match fuel with
      | 0 => none
      | f + 1 =>
        match unary f rest lv with
        | none => none
        | some (m, r) => mulLoop f (new_binary .ND_MUL node m) r lv
    else if equal t "/" then
      match fuel with
      | 0 => none
      | f + 1 =>
        match unary f rest lv with
        | none => none
        | some (m, r) => mulLoop f (new_binary .ND_DIV node m) r lv
    else some (node, t :: rest)

/-- `unary = ("+" | "-" | "*" | "&") unary | primary`
(parse.c lines 374-388).  A leading `+` builds no node: the result is
exactly `unary` of the rest. -/
def unary (fuel : Nat) (toks : List Token) (lv : List Obj) :
    Option (Node × List Token) :=
  match fuel with
  | 0 => none
  | f + 1 =>
    if headIs toks "+" then unary f toks.tail lv
    else if headIs toks "-" then
      match unary f toks.tail lv with
      | none => none
      | some (e, r) => some (new_unary .ND_NEG e, r)
    else if headIs toks "*" then
      match unary f toks.tail lv with
      | none => none
      | some (e, r) => some (new_unary .ND_DEREF e, r)
    else if headIs toks "&" then
      match unary f toks.tail lv with
      | none => none
      | some (e, r) => some (new_unary .ND_ADDR e, r)
    else primary f toks lv

/-- `primary = "(" expr ")" | ident args? | num` (parse.c lines 392-423).
An identifier followed by `(` is a zero-argument call; otherwise it must
resolve through `find_var`, and an unknown name is the fatal "undefined
variable". -/
def primary (fuel : Nat) (toks : List Token) (lv : List Obj) :
    Option (Node × List Token) :=
  match fuel with
  | 0 => none
  | f + 1 =>
    if headIs toks "(" then
      match expr f toks.tail lv with
      | none => none
      | some (n, r) =>
        match skip r ")" with
        | none => none
        | some r2 => some (n, r2)
    else
      match toks with
      | .num v :: rest => some (new_num v, rest)
      | .ident s :: rest =>
        if headIs rest "(" then
          match skip rest.tail ")" with
          | none => none
          | some r2 => some ((new_node .ND_FUNCALL).setFuncname (some s), r2)
        else
          match find_var s lv with
          | none => none
          | some v => some (new_var_node v, rest)
      | _ => none

end

/-- `struct Function` of the header (the `next`, `name` and `stack_size`
fields are used only by the absent driver and code generator). -/
structure Function where
  body : Node
  locals : List Obj

/-- `parse` (parse.c lines 426-432): skip the opening `{`, parse the
compound statement, and package the body with the final `locals` list.  The
token position where `compound_stmt` stopped is not inspected further. -/
def parse (fuel : Nat) (toks : List Token) : Option Function :=
  match skip toks "\x7b" with
  | none => none
  | some toks1 =>
    match compound_stmt fuel toks1 [] with
    | none => none
    | some (body, _, lv) => some ⟨body, lv⟩

/-- The token under the cursor is one of the four relational operators the
`relational` loop reacts to. -/
def relOpHead (toks : List Token) : Bool :=
  headIs toks "<" || headIs toks "<=" || headIs toks ">" || headIs toks ">="

end Chibicc

namespace Part0

/-- Characters with equal code points are equal. -/
theorem char_toNat_injective {c d : Char} (h : c.toNat = d.toNat) : c = d := by
  have h2 : Char.ofNat c.toNat = Char.ofNat d.toNat := by rw [h]
  rwa [Char.ofNat_toNat, Char.ofNat_toNat] at h2

/-- C2: the claim says the lexer produces a two-character punctuator exactly
when the input starts with `==`, `!=`, `<=` or `>=`, and a one-character one
at any other punctuation character.  In fact `startswith` lacks the `== 0`
on its `strncmp`, so it is true whenever `p` does NOT start with `q`; no
position can start with all four operators at once, so `read_punct` answers
2 at every position whatsoever. -/
theorem read_punct_always_two (p : List Char) : read_punct p = 2 := by
  rcases p with _ | ⟨c, rest⟩
  · decide
  · by_cases hc : c = '='
    · subst hc
      have h2 : startswith ('=' :: rest) ['!', '='] = true := rfl
      simp [read_punct, h2]
    · have h1 : startswith (c :: rest) ['=', '='] = true := by
        have hval : ('=' : Char).toNat = 61 := rfl
        have hne : ((c.toNat : Int) - 61) ≠ 0 := fun h0 =>
          hc (char_toNat_injective (by omega))
        simp [startswith, strncmp, hc, hval]
        omega
      simp [read_punct, h1]

/-- `gen_expr` restores the depth counter: each `push` inside a binary node
is matched by the `pop` into `%rdi`. -/
theorem genExpr_depth (n : Node) (d : Int) : (genExpr n d).2 = d := by
  induction n generalizing d with
  | num v => rfl
  | neg e ih => simp [genExpr, ih]
  | binary k l r ihl ihr => simp [genExpr, ihl, ihr]

/-- C4: for every expression the code generator can receive, generation ends
with the operand-stack depth counter back at zero, so the `assert(depth == 0)`
at the end of `main` never fails. -/
theorem gen_expr_depth_returns_to_zero (n : Node) :
    (genExpr n 0).2 = 0 ∧ mainDepthAssert n = true := by
  refine ⟨genExpr_depth n 0, ?_⟩
  simp [mainDepthAssert, genExpr_depth]

/-- C7: a binary node emits, in order: the right operand, `push %rax`, the
left operand, `pop %rdi`, then the combining tail; division's tail is the
sign-extending `cqo` before `idiv`, and each comparison's tail is a `cmp`,
a 0/1 byte `set*` into `%al`, and a zero-extending `movzb` to `%rax`. -/
theorem gen_expr_binary_emission_order (k : BinKind) (l r : Node) (d : Int) :
    (genExpr (.binary k l r) d).1 =
      (genExpr r d).1 ++ ["  push %rax"] ++ (genExpr l (d + 1)).1 ++
        ["  pop %rdi"] ++ binOps k
    ∧ binOps .div = ["  cqo", "  idiv %rdi"]
    ∧ binOps .eq = ["  cmp %rdi, %rax", "  sete %al", "  movzb %al, %rax"]
    ∧ binOps .ne = ["  cmp %rdi, %rax", "  setne %al", "  movzb %al, %rax"]
    ∧ binOps .lt = ["  cmp %rdi, %rax", "  setl %al", "  movzb %al, %rax"]
    ∧ binOps .le = ["  cmp %rdi, %rax", "  setle %al", "  movzb %al, %rax"] := by
  refine ⟨?_, rfl, rfl, rfl, rfl, rfl⟩
  simp [genExpr, genExpr_depth]

end Part0

namespace Chibicc

/-- The `declaration` loop exits at once on a `;` token, touching nothing. -/
theorem declLoop_semi (f : Nat) (basety : Ty) (first : Bool)
    (rest : List Token) (lv : List Obj) (acc : List Node) :
    declLoop f basety first (Token.punct ";" :: rest) lv acc
      = some (acc, rest, lv) := by
  cases f <;> simp [declLoop, equal]

/-- The `relational` loop returns its accumulated node unchanged when the
cursor is not at a relational operator. -/
theorem relLoop_stop {f : Nat} {n : Node} {toks : List Token} {lv : List Obj}
    (h : relOpHead toks = false) : relLoop f n toks lv = some (n, toks) := by
  rcases toks with _ | ⟨t, rest⟩
  · cases f <;> simp [relLoop]
  · simp only [relOpHead, headIs, Bool.or_eq_false_iff] at h
    obtain ⟨⟨⟨e1, e2⟩, e3⟩, e4⟩ := h
    cases f <;> simp [relLoop, e1, e2, e3, e4]

/-- C1: the claim says that for `num + ptr` as much as for `ptr + num` the
integer operand is scaled by 8 and combined with the pointer under `ND_ADD`.
At the concrete input `1 + p` (`p` of type `int*`) the botched swap in
`new_add` instead uses the pointer operand on both sides: the result is
`p + p*8` with the literal 1 discarded. -/
theorem new_add_num_ptr_drops_offset :
    new_add (new_num 1) (new_var_node ⟨"p", Ty.ptr .int, 0⟩)
      = some ((new_binary .ND_ADD
          ((new_var_node ⟨"p", Ty.ptr .int, 0⟩).setTy (some (.ptr .int)))
          ((new_binary .ND_MUL
            ((new_var_node ⟨"p", Ty.ptr .int, 0⟩).setTy (some (.ptr .int)))
            (new_num 8)).setTy (some .int))).setTy (some (.ptr .int))) := by
  rfl

/-- C3: `new_sub` of two pointers builds the int-typed raw difference
`ND_SUB` and divides it by the element size 8, the whole node typed int;
`new_sub` of a pointer and an integer scales the integer by 8 first and the
result keeps the pointer operand's type. -/
theorem new_sub_pointer_semantics (l r l2 r2 : Node) (b1 b2 b : Ty)
    (hl : (add_type l).ty = some (.ptr b1))
    (hr : (add_type r).ty = some (.ptr b2))
    (hl2 : (add_type l2).ty = some (.ptr b))
    (hr2 : (add_type r2).ty = some .int) :
    new_sub l r
        = some ((new_binary .ND_DIV
            ((new_binary .ND_SUB (add_type l) (add_type r)).setTy (some .int))
            (new_num 8)).setTy (some .int))
    ∧ new_sub l2 r2
        = some ((new_binary .ND_SUB (add_type l2)
            ((new_binary .ND_MUL (add_type r2) (new_num 8)).setTy
              (some .int))).setTy (some (.ptr b))) := by
  constructor
  · simp [new_sub, hl, hr, is_integer, tyBase]
  · simp [new_sub, hl2, hr2, is_integer, tyBase]

/-- Witness for C3 at `&x - &y` and `p - 3`. -/
theorem new_sub_pointer_semantics_witness :
    new_sub (new_unary .ND_ADDR (new_var_node ⟨"x", Ty.int, 0⟩))
        (new_unary .ND_ADDR (new_var_node ⟨"y", Ty.int, 0⟩))
      = some ((new_binary .ND_DIV
          ((new_binary .ND_SUB
            (add_type (new_unary .ND_ADDR (new_var_node ⟨"x", Ty.int, 0⟩)))
            (add_type (new_unary .ND_ADDR
              (new_var_node ⟨"y", Ty.int, 0⟩)))).setTy (some .int))
          (new_num 8)).setTy (some .int))
    ∧ new_sub (new_var_node ⟨"p", Ty.ptr .int, 0⟩) (new_num 3)
      = some ((new_binary .ND_SUB (add_type (new_var_node ⟨"p", Ty.ptr .int, 0⟩))
          ((new_binary .ND_MUL (add_type (new_num 3)) (new_num 8)).setTy
            (some .int))).setTy (some (.ptr .int))) :=
  new_sub_pointer_semantics _ _ _ _ .int .int .int rfl rfl rfl rfl

/-- C5 counterexample: with the tokens of `{ } 1` — a non-EOF token left
after the closing brace — `parse` does not fail with an "extra token" error:
it returns a complete `Function` and ignores the remainder. -/
theorem parse_trailing_tokens_cex :
    parse 1 [Token.punct "\x7b", Token.punct "\x7d", Token.num 1, Token.eof]
      = some ⟨(new_node .ND_BLOCK).setBody [], []⟩ := by
  rfl

/-- C5 (amended): `parse` performs no end-of-input check at all: whenever
the compound statement parses, `parse` succeeds with its AST, whatever
tokens remain after the closing brace. -/
theorem parse_ignores_trailing_tokens (f : Nat) (toks rest : List Token)
    (node : Node) (lv : List Obj)
    (h : compound_stmt f toks [] = some (node, rest, lv)) :
    parse f (Token.punct "\x7b" :: toks) = some ⟨node, lv⟩ := by
  simp [parse, skip, equal, h]

/-- Witness for the amended C5 at `{ ; } 42`. -/
theorem parse_ignores_trailing_tokens_witness :
    parse 4 [Token.punct "\x7b", Token.punct ";", Token.punct "\x7d",
        Token.num 42, Token.eof]
      = some ⟨(new_node .ND_BLOCK).setBody [new_node .ND_BLOCK], []⟩ :=
  parse_ignores_trailing_tokens 4
    [Token.punct ";", Token.punct "\x7d", Token.num 42, Token.eof]
    [Token.num 42, Token.eof]
    ((new_node .ND_BLOCK).setBody [new_node .ND_BLOCK]) [] (by rfl)

/-- C6: declaring the same name twice pushes a second, distinct `Obj` on the
`locals` list without touching the first; `find_var` then resolves the name
to the most recent entry; and the (spec-modelled) frame-offset assignment
still hands each of the two entries its own slot. -/
theorem redeclaration_shadows_and_keeps_old_slot (locals : List Obj)
    (name : String) (ty1 ty2 : Ty) :
    (new_lvar name ty2 (new_lvar name ty1 locals).2).2
        = ⟨name, ty2, 0⟩ :: ⟨name, ty1, 0⟩ :: locals
    ∧ find_var name (new_lvar name ty2 (new_lvar name ty1 locals).2).2
        = some (new_lvar name ty2 (new_lvar name ty1 locals).2).1
    ∧ (assign_lvar_offsets 0
          (new_lvar name ty2 (new_lvar name ty1 locals).2).2).take 2
        = [⟨name, ty2, -8⟩, ⟨name, ty1, -16⟩] := by
  refine ⟨rfl, ?_, ?_⟩
  · simp [find_var, new_lvar]
  · simp [new_lvar, assign_lvar_offsets]

/-- C8: in `relational`, `a > b` is combined as `ND_LT` with the freshly
parsed right operand as LEFT child (and `a >= b` as `ND_LE` likewise), which
is exactly the node built for `b < a` (resp. `b <= a`): operands swapped,
less-than kinds reused, no greater-than kind exists. -/
theorem relational_gt_swaps_operands (f : Nat) (lv : List Obj)
    (gtIn gtTl ltIn ltTl geIn geTl leIn leTl : List Token)
    (restGt restLt restGe restLe : List Token) (na nb ma mb : Node)
    (h1 : add (f + 1) gtIn lv = some (na, Token.punct ">" :: gtTl))
    (h2 : add f gtTl lv = some (nb, restGt))
    (h3 : relOpHead restGt = false)
    (h4 : add (f + 1) ltIn lv = some (nb, Token.punct "<" :: ltTl))
    (h5 : add f ltTl lv = some (na, restLt))
    (h6 : relOpHead restLt = false)
    (h7 : add (f + 1) geIn lv = some (ma, Token.punct ">=" :: geTl))
    (h8 : add f geTl lv = some (mb, restGe))
    (h9 : relOpHead restGe = false)
    (h10 : add (f + 1) leIn lv = some (mb, Token.punct "<=" :: leTl))
    (h11 : add f leTl lv = some (ma, restLe))
    (h12 : relOpHead restLe = false) :
    relational (f + 2) gtIn lv = some (new_binary .ND_LT nb na, restGt)
    ∧ relational (f + 2) ltIn lv = some (new_binary .ND_LT nb na, restLt)
    ∧ relational (f + 2) geIn lv = some (new_binary .ND_LE mb ma, restGe)
    ∧ relational (f + 2) leIn lv = some (new_binary .ND_LE mb ma, restLe) := by
  refine ⟨?_, ?_, ?_, ?_⟩
  · simp [relational, h1, relLoop, equal, h2, relLoop_stop h3]
  · simp [relational, h4, relLoop, equal, h5, relLoop_stop h6]
  · simp [relational, h7, relLoop, equal, h8, relLoop_stop h9]
  · simp [relational, h10, relLoop, equal, h11, relLoop_stop h12]

/-- Witness for C8 at `1 > 2`, `2 < 1`, `1 >= 2`, `2 <= 1`. -/
theorem relational_gt_swaps_operands_witness :
    relational 6 [Token.num 1, Token.punct ">", Token.num 2, Token.eof] []
      = some (new_binary .ND_LT (new_num 2) (new_num 1), [Token.eof])
    ∧ relational 6 [Token.num 2, Token.punct "<", Token.num 1, Token.eof] []
      = some (new_binary .ND_LT (new_num 2) (new_num 1), [Token.eof])
    ∧ relational 6 [Token.num 1, Token.punct ">=", Token.num 2, Token.eof] []
      = some (new_binary .ND_LE (new_num 2) (new_num 1), [Token.eof])
    ∧ relational 6 [Token.num 2, Token.punct "<=", Token.num 1, Token.eof] []
      = some (new_binary .ND_LE (new_num 2) (new_num 1), [Token.eof]) :=
  relational_gt_swaps_operands 4 []
    [Token.num 1, Token.punct ">", Token.num 2, Token.eof]
    [Token.num 2, Token.eof]
    [Token.num 2, Token.punct "<", Token.num 1, Token.eof]
    [Token.num 1, Token.eof]
    [Token.num 1, Token.punct ">=", Token.num 2, Token.eof]
    [Token.num 2, Token.eof]
    [Token.num 2, Token.punct "<=", Token.num 1, Token.eof]
    [Token.num 1, Token.eof]
    [Token.eof] [Token.eof] [Token.eof] [Token.eof]
    (new_num 1) (new_num 2) (new_num 1) (new_num 2)
    (by rfl) (by rfl) (by rfl) (by rfl) (by rfl) (by rfl)
    (by rfl) (by rfl) (by rfl) (by rfl) (by rfl) (by rfl)

/-- C9 counterexample: the token sequence `int ;` with zero declarators IS
accepted by `declaration`, producing an empty block, because the source's
`while (!equal(tok, ";"))` loop runs zero times. -/
theorem declaration_int_semi_cex :
    declaration 1 [Token.keyword "int", Token.punct ";", Token.eof] []
      = some ((new_node .ND_BLOCK).setBody [], [Token.eof], []) := by
  rfl

/-- C9 (amended): a declaration is `"int"` followed by ZERO or more
declarators before the `;` — matching the source's own grammar comment,
which makes the declarator group optional — so `int ;` parses to an empty
declaration, leaving the remaining tokens and locals untouched. -/
theorem declaration_zero_declarators (f : Nat) (rest : List Token)
    (lv : List Obj) :
    declaration (f + 1) (Token.keyword "int" :: Token.punct ";" :: rest) lv
      = some ((new_node .ND_BLOCK).setBody [], rest, lv) := by
  simp [declaration, skip, equal, declLoop_semi]

/-- One step of `unary` on a leading `+` builds nothing. -/
theorem unary_plus_step (g : Nat) (toks : List Token) (lv : List Obj) :
    unary (g + 1) (Token.punct "+" :: toks) lv = unary g toks lv := by
  simp [unary, headIs, equal]

/-- C10: any number of leading unary `+` tokens is the identity on the
parsed expression: `unary` constructs no node for them and returns exactly
the parse of the operand. -/
theorem unary_plus_identity (f n : Nat) (toks : List Token) (lv : List Obj) :
    unary (f + n) (List.replicate n (Token.punct "+") ++ toks) lv
      = unary f toks lv := by
  induction n with
  | zero => rfl
  | succ m ih =>
    have e : f + (m + 1) = (f + m) + 1 := by omega
    rw [e, List.replicate_succ, List.cons_append, unary_plus_step, ih]

end Chibicc
